import Mathlib

/-!
Shallow embedding of the `viam-filtered-camera-selective-sync` module
(packages `timeselectcamera` and `timesyncsensor`).

Modelling conventions:
* An instant (`time.Time`) is modelled as `Int`: seconds since the Unix epoch
  1970-01-01T00:00:00.  The process location is modelled as fixed UTC, so
  wall-clock seconds and absolute seconds coincide; `time.Date(t.Year(),
  t.Month(), t.Day(), H, M, S, 0, loc)` becomes `dateOf t + H*3600 + M*60 + S`,
  `t.Before u` becomes `t < u`, `t.After u` becomes `t > u`, and
  `t.Add(24 * time.Hour)` becomes `t + 86400`.  Sub-second precision is below
  the model's granularity (none of the gating logic uses it).
* `time.Parse` with layouts "15:04", "15:04:05" and RFC3339 is embedded
  character by character, following Go's parser (1-2 digit hour, fixed 2-digit
  minute/second, range checks, no trailing text; RFC3339 via Go's strict
  fast path with Gregorian day-of-range checks and a Z or +-hh:mm zone).
  Go's zero `time.Time` (returned alongside a parse error and used by the
  code, which discards parse errors inside `inWindow`) is year 1, i.e.
  `zeroTimeSec` seconds relative to the Unix epoch.
* Go maps (`map[string]ScheduleHours`, `map[string]interface{}`) are modelled
  as association lists with `List.lookup`; a `nil` map versus a non-nil map
  for the `extra` argument is `Option`.  Go `interface{}` values that the code
  compares against are modelled by the small universe `GoValue`.
* A Go `(value, error)` return is `GoResult`; the inner camera is an abstract
  function producing a `GoResult`, so "delegates unmodified" is expressible.
-/

namespace TimeSelect

/-- Numeric value of a decimal digit character, `none` otherwise. -/
def digitVal (c : Char) : Option Nat :=
  if c.isDigit then some (c.toNat - 48) else none

/-- Go `getnum` with `fixed = false`: one or two decimal digits. -/
def getnum2 : List Char → Option (Nat × List Char)
  | [] => none
  | c :: cs =>
    match digitVal c with
    | none => none
    | some d =>
      match cs with
      | c2 :: cs2 =>
        match digitVal c2 with
        | some d2 => some (d * 10 + d2, cs2)
        | none => some (d, cs)
      | [] => some (d, [])

/-- Go `getnum` with `fixed = true`: exactly two decimal digits. -/
def getnumFixed2 : List Char → Option (Nat × List Char)
  | c1 :: c2 :: cs =>
    match digitVal c1, digitVal c2 with
    | some d1, some d2 => some (d1 * 10 + d2, cs)
    | _, _ => none
  | _ => none

/-- Exactly four decimal digits (the RFC3339 year field). -/
def getnumFixed4 : List Char → Option (Nat × List Char)
  | c1 :: c2 :: c3 :: c4 :: cs =>
    match digitVal c1, digitVal c2, digitVal c3, digitVal c4 with
    | some d1, some d2, some d3, some d4 =>
      some (((d1 * 10 + d2) * 10 + d3) * 10 + d4, cs)
    | _, _, _, _ => none
  | _ => none

/-- Consume one expected literal character. -/
def expectChar (c : Char) : List Char → Option (List Char)
  | c2 :: cs => if c2 = c then some cs else none
  | [] => none

/-- Go `time.Parse("15:04", s)`: hour and minute, or `none` on any parse
error (range error, malformed field, trailing text). -/
def parseHHMM (s : String) : Option (Nat × Nat) :=
  match getnum2 s.toList with
  | none => none
  | some (h, r1) =>
    match expectChar ':' r1 with
    | none => none
    | some r2 =>
      match getnumFixed2 r2 with
      | none => none
      | some (m, r3) =>
        if r3 = [] ∧ h < 24 ∧ m < 60 then some (h, m) else none

/-- Go `time.Parse("15:04:05", s)`: hour, minute and second. -/
def parseHHMMSS (s : String) : Option (Nat × Nat × Nat) :=
  match getnum2 s.toList with
  | none => none
  | some (h, r1) =>
    match expectChar ':' r1 with
    | none => none
    | some r2 =>
      match getnumFixed2 r2 with
      | none => none
      | some (m, r3) =>
        match expectChar ':' r3 with
        | none => none
        | some r4 =>
          match getnumFixed2 r4 with
          | none => none
          | some (sec, r5) =>
            if r5 = [] ∧ h < 24 ∧ m < 60 ∧ sec < 60 then some (h, m, sec) else none

/-- Gregorian leap-year rule (as in Go `isLeap`). -/
def isLeapYear (y : Nat) : Bool :=
  y % 4 == 0 && (y % 100 != 0 || y % 400 == 0)

/-- Number of days in month `m` of year `y` (as in Go `daysIn`). -/
def daysInMonth (m y : Nat) : Nat :=
  if m = 2 then (if isLeapYear y then 29 else 28)
  else if m = 4 ∨ m = 6 ∨ m = 9 ∨ m = 11 then 30
  else 31

/-- Days from 1970-01-01 to the Gregorian date y-m-d (proleptic; the standard
civil-from-days inverse used to model Go's absolute-date computation). -/
def daysFromCivil (y m d : Nat) : Int :=
  let yy : Int := if m ≤ 2 then (y : Int) - 1 else (y : Int)
  let era : Int := Int.tdiv (if 0 ≤ yy then yy else yy - 399) 400
  let yoe : Int := yy - era * 400
  let mp : Int := Int.emod ((m : Int) + 9) 12
  let doy : Int := Int.tdiv (153 * mp + 2) 5 + (d : Int) - 1
  let doe : Int := yoe * 365 + Int.tdiv yoe 4 - Int.tdiv yoe 100 + doy
  era * 146097 + doe - 719468

/-- Drop a leading run of decimal digits (the ignored fractional-second
digits of RFC3339). -/
def dropDigits : List Char → List Char
  | c :: cs => if c.isDigit then dropDigits cs else c :: cs
  | [] => []

/-- Seconds (relative to the Unix epoch) of Go's zero `time.Time`
(January 1, year 1, 00:00:00 UTC): `86400 * daysFromCivil 1 1 1`. -/
def zeroTimeSec : Int := -62135596800

/-- Go `time.Parse(time.RFC3339, s)` via the strict RFC3339 fast path:
date, literal `T`, time, optional fractional seconds (ignored at this
model's one-second granularity), then `Z` or a `+hh:mm`/`-hh:mm` zone.
Returns the absolute instant in seconds since the Unix epoch. -/
def parseRFC3339 (s : String) : Option Int :=
  match getnumFixed4 s.toList with
  | none => none
  | some (y, r1) =>
    match expectChar '-' r1 with
    | none => none
    | some r2 =>
      match getnumFixed2 r2 with
      | none => none
      | some (mo, r3) =>
        match expectChar '-' r3 with
        | none => none
        | some r4 =>
          match getnumFixed2 r4 with
          | none => none
          | some (d, r5) =>
            match expectChar 'T' r5 with
            | none => none
            | some r6 =>
              match getnumFixed2 r6 with
              | none => none
              | some (h, r7) =>
                match expectChar ':' r7 with
                | none => none
                | some r8 =>
                  match getnumFixed2 r8 with
                  | none => none
                  | some (mi, r9) =>
                    match expectChar ':' r9 with
                    | none => none
                    | some r10 =>
                      match getnumFixed2 r10 with
                      | none => none
                      | some (sec, r11) =>
                        if 1 ≤ mo ∧ mo ≤ 12 ∧ 1 ≤ d ∧ d ≤ daysInMonth mo y ∧
                            h ≤ 23 ∧ mi ≤ 59 ∧ sec ≤ 59 then
                          let r12 :=
                            match r11 with
                            | '.' :: c :: cs =>
                              if c.isDigit then dropDigits cs else '.' :: c :: cs
                            | other => other
                          let base : Int :=
                            86400 * daysFromCivil y mo d +
                              ((h * 3600 + mi * 60 + sec : Nat) : Int)
                          match r12 with
                          | ['Z'] => some base
                          | [sgn, z1, z2, colon, z3, z4] =>
                            if colon = ':' ∧ (sgn = '+' ∨ sgn = '-') then
                              match digitVal z1, digitVal z2, digitVal z3, digitVal z4 with
                              | some a, some b, some c, some e =>
                                let zh := a * 10 + b
                                let zm := c * 10 + e
                                if zh ≤ 23 ∧ zm ≤ 59 then
                                  let off : Int := ((zh * 3600 + zm * 60 : Nat) : Int)
                                  some (if sgn = '-' then base + off else base - off)
                                else none
                              | _, _, _, _ => none
                            else none
                          | _ => none
                        else none

/-- Local midnight of the calendar date containing `t`:
`time.Date(t.Year(), t.Month(), t.Day(), 0, 0, 0, 0, t.Location())`. -/
def dateOf (t : Int) : Int := t - Int.emod t 86400

/-- Go `strings.ToLower(t.Weekday().String()[:3])`.  1970-01-01 (day 0 of the
model) was a Thursday, and Go's `Weekday` numbers Sunday as 0. -/
def weekdayName (t : Int) : String :=
  ["sun", "mon", "tue", "wed", "thu", "fri", "sat"].getD
    (Int.emod (Int.ediv t 86400 + 4) 7).toNat "sun"

/-- `timeselectcamera.ScheduleHours`: start/end times for a weekday. -/
structure ScheduleHours where
  start : String
  «end» : String
  deriving DecidableEq

/-- `timeselectcamera.DateRange`: an explicit start/end timestamp pair. -/
structure DateRange where
  start : String
  «end» : String
  deriving DecidableEq

/-- `timeselectcamera.Config`; the two Go maps are association lists. -/
structure Config where
  camera : String
  startHours : String
  endHours : String
  weeklySchedule : List (String × ScheduleHours)
  schedule : List DateRange
  deriving DecidableEq

/-- `timesyncsensor.Config`. -/
structure SensorConfig where
  startHours : String
  endHours : String
  deriving DecidableEq

/-- The Go `interface{}` values this code stores or compares. -/
inductive GoValue where
  | bool (b : Bool)
  | str (s : String)
  | int (n : Int)
  deriving DecidableEq

/-- The Go `error` values this code returns: `data.ErrNoCaptureToStore`,
`errUnimplemented`, and everything else by message. -/
inductive GoError where
  | noCaptureToStore
  | unimplemented
  | other (msg : String)
  deriving DecidableEq

/-- A Go `(value, error)` pair with exactly one side meaningful. -/
inductive GoResult (α : Type) where
  | ok (val : α)
  | err (e : GoError)
  deriving DecidableEq

/-- Whether a Go call returned a non-nil error. -/
def GoResult.isErr {α : Type} : GoResult α → Bool
  | GoResult.ok _ => false
  | GoResult.err _ => true

/-- Read one key out of a successful readings map (`none` on error or
missing key). -/
def readingsLookup (r : GoResult (List (String × GoValue))) (k : String) :
    Option GoValue :=
  match r with
  | GoResult.ok m => m.lookup k
  | GoResult.err _ => none

/-- The `extra map[string]interface{}` argument: `none` is a nil map. -/
def Extra : Type := Option (List (String × GoValue))

/-- The Go condition `extra != nil && extra["fromDataManagement"] == true`
(an absent key yields a nil `interface{}`, which is not `== true`). -/
def fromDM (extra : Extra) : Bool :=
  match extra with
  | none => false
  | some m => decide (m.lookup "fromDataManagement" = some (GoValue.bool true))

/-- Hours-mode part of `timeselectcamera.Config.Validate` (the `if hours`
block): first error, if any. -/
def checkHours (cfg : Config) (path : String) : Option String :=
  match parseHHMM cfg.startHours with
  | none => some (path ++ ": invalid start_hours " ++ cfg.startHours)
  | some _ =>
    match parseHHMM cfg.endHours with
    | none => some (path ++ ": invalid end_hours " ++ cfg.endHours)
    | some _ => none

/-- Body of one iteration of the per-day loop of the `if weekly` block of
`Config.Validate`: the error reported for `day`, if any. -/
def checkOneDay (ws : List (String × ScheduleHours)) (path day : String) :
    Option String :=
  match ws.lookup day with
  | none => some (path ++ ": missing weekly_schedule for " ++ day)
  | some sh =>
    if sh.start = "" ∨ sh.«end» = "" then
      some (path ++ ": weekly_schedule " ++ day ++ " must have start and end")
    else
      match parseHHMMSS sh.start with
      | none => some (path ++ ": invalid weekly_schedule " ++ day ++ " start " ++ sh.start)
      | some _ =>
        match parseHHMMSS sh.«end» with
        | none => some (path ++ ": invalid weekly_schedule " ++ day ++ " end " ++ sh.«end»)
        | some _ => none

/-- Per-day loop of the `if weekly` block of `Config.Validate`: first
error wins. -/
def checkWeeklyDays (ws : List (String × ScheduleHours)) (path : String) :
    List String → Option String
  | [] => none
  | day :: rest =>
    match checkOneDay ws path day with
    | some e => some e
    | none => checkWeeklyDays ws path rest

/-- The seven required weekday keys, in the order `Config.Validate` checks. -/
def validateDays : List String := ["mon", "tue", "wed", "thu", "fri", "sat", "sun"]

/-- Date-ranges loop of the `if dates` block of `Config.Validate`. -/
def checkDates (path : String) : List DateRange → Option String
  | [] => none
  | dr :: rest =>
    match parseRFC3339 dr.start with
    | none => some (path ++ ": schedule start invalid timestamp " ++ dr.start)
    | some s =>
      match parseRFC3339 dr.«end» with
      | none => some (path ++ ": schedule end invalid timestamp " ++ dr.«end»)
      | some e =>
        if ¬ s < e then some (path ++ ": schedule start must be before end")
        else checkDates path rest

/-- `timeselectcamera.Config.Validate`. -/
def Config.Validate (cfg : Config) (path : String) : GoResult (List String) :=
  if cfg.camera = "" then
    GoResult.err (GoError.other (path ++ ": camera is required"))
  else if !((cfg.startHours != "" && cfg.endHours != "") ||
      !cfg.weeklySchedule.isEmpty || !cfg.schedule.isEmpty) then
    GoResult.err (GoError.other (path ++
      ": must specify at least one of start_hours/end_hours, weekly_schedule, or schedule"))
  else
    match (if cfg.startHours != "" && cfg.endHours != "" then
        checkHours cfg path else none) with
    | some e => GoResult.err (GoError.other e)
    | none =>
      match (if !cfg.weeklySchedule.isEmpty then
          checkWeeklyDays cfg.weeklySchedule path validateDays else none) with
      | some e => GoResult.err (GoError.other e)
      | none =>
        match (if !cfg.schedule.isEmpty then
            checkDates path cfg.schedule else none) with
        | some e => GoResult.err (GoError.other e)
        | none => GoResult.ok [cfg.camera]

/-- Date-ranges loop of `timedCamera.inWindow`; a parse error is discarded and
yields Go's zero time (`zeroTimeSec`), exactly as `start, _ := time.Parse(...)`. -/
def inAnyRange (t : Int) : List DateRange → Bool
  | [] => false
  | dr :: rest =>
    let s := (parseRFC3339 dr.start).getD zeroTimeSec
    let e := (parseRFC3339 dr.«end»).getD zeroTimeSec
    if decide (s ≤ t) && decide (t ≤ e) then true else inAnyRange t rest

/-- `timedCamera.inWindow`: hours mode if both daily bounds are set, else the
weekly entry for `t`'s weekday if present, else the explicit date ranges
(falling through to `false` on an empty list).  Discarded parse errors give
hour/minute 0 of Go's zero time. -/
def inWindow (cfg : Config) (t : Int) : Bool :=
  if cfg.startHours != "" && cfg.endHours != "" then
    let sh := (parseHHMM cfg.startHours).getD (0, 0)
    let eh := (parseHHMM cfg.endHours).getD (0, 0)
    let start := dateOf t + ((sh.1 * 3600 + sh.2 * 60 : Nat) : Int)
    let stop := dateOf t + ((eh.1 * 3600 + eh.2 * 60 : Nat) : Int)
    let stop := if start > stop then stop + 86400 else stop
    decide (start ≤ t) && decide (t ≤ stop)
  else
    match (if !cfg.weeklySchedule.isEmpty then cfg.weeklySchedule.lookup (weekdayName t) else none) with
    | some sh =>
      let ts := (parseHHMMSS sh.start).getD (0, 0, 0)
      let te := (parseHHMMSS sh.«end»).getD (0, 0, 0)
      let start := dateOf t + ((ts.1 * 3600 + ts.2.1 * 60 + ts.2.2 : Nat) : Int)
      let stop := dateOf t + ((te.1 * 3600 + te.2.1 * 60 + te.2.2 : Nat) : Int)
      let stop := if start > stop then stop + 86400 else stop
      decide (start ≤ t) && decide (t ≤ stop)
    | none => inAnyRange t cfg.schedule

/-- `timedCamera.Image`: gate on the scheduled-capture marker and the window,
else delegate to the inner camera with the arguments unmodified. -/
def timedCameraImage {α : Type} (cfg : Config) (now : Int) (mimeType : String)
    (extra : Extra) (inner : String → Extra → GoResult α) : GoResult α :=
  if fromDM extra then
    if !inWindow cfg now then GoResult.err GoError.noCaptureToStore
    else inner mimeType extra
  else inner mimeType extra

/-- `timedStream.Next` (earlier revision of the camera, daily mode only):
no context extra means delegate; with the marker, parse the bounds (returning
the parse error this time), gate inclusively with the same midnight-spanning
adjustment, else delegate to the wrapped stream. -/
def timedStreamNext {α : Type} (startHours endHours : String) (now : Int)
    (ctxExtra : Option Extra) (inner : GoResult α) : GoResult α :=
  match ctxExtra with
  | none => inner
  | some extra =>
    if fromDM extra then
      match parseHHMM startHours with
      | none => GoResult.err (GoError.other "invalid start time format")
      | some (sh, sm) =>
        match parseHHMM endHours with
        | none => GoResult.err (GoError.other "invalid end time format")
        | some (eh, em) =>
          let start := dateOf now + ((sh * 3600 + sm * 60 : Nat) : Int)
          let stop := dateOf now + ((eh * 3600 + em * 60 : Nat) : Int)
          let stop := if start > stop then stop + 86400 else stop
          if !(decide (start ≤ now) && decide (now ≤ stop)) then
            GoResult.err GoError.noCaptureToStore
          else inner
    else inner

/-- Camera properties; `supportsPCD` is the one field the wrapper touches,
`otherFields` stands for the untouched remainder of `camera.Properties`. -/
structure Properties where
  supportsPCD : Bool
  otherFields : String
  deriving DecidableEq

/-- `timedCamera.Images`: unconditionally unimplemented. -/
def timedCameraImages : GoResult (List String) :=
  GoResult.err GoError.unimplemented

/-- `timedCamera.NextPointCloud`: unconditionally unimplemented. -/
def timedCameraNextPointCloud : GoResult (List (Int × Int × Int)) :=
  GoResult.err GoError.unimplemented

/-- `timedCamera.DoCommand`: unconditionally unimplemented. -/
def timedCameraDoCommand (_cmd : List (String × GoValue)) :
    GoResult (List (String × GoValue)) :=
  GoResult.err GoError.unimplemented

/-- `timeSensor.DoCommand`: unconditionally unimplemented. -/
def timeSensorDoCommand (_cmd : List (String × GoValue)) :
    GoResult (List (String × GoValue)) :=
  GoResult.err GoError.unimplemented

/-- `timedCamera.Properties`: proxy to the inner camera, forcing
`SupportsPCD` to `false` on success and passing an error through. -/
def timedCameraProperties (inner : GoResult Properties) : GoResult Properties :=
  match inner with
  | GoResult.ok p => GoResult.ok { p with supportsPCD := false }
  | GoResult.err e => GoResult.err e

/-- `timeSensor.Readings` (revision with overnight handling): parse the daily
bounds (erroring out on failure), anchor to today, add 24h to the end when
reversed, and return the readings map; `extra` is accepted but never used.
The three `Format(...)` debug strings are abstracted to a decimal rendering
of the modelled instant (their content plays no role in any claim). -/
def timeSensorReadings (cfg : SensorConfig) (now : Int) (_extra : Extra) :
    GoResult (List (String × GoValue)) :=
  match parseHHMM cfg.startHours with
  | none => GoResult.err (GoError.other "invalid start time format")
  | some (sh, sm) =>
    match parseHHMM cfg.endHours with
    | none => GoResult.err (GoError.other "invalid end time format")
    | some (eh, em) =>
      let start := dateOf now + ((sh * 3600 + sm * 60 : Nat) : Int)
      let stop := dateOf now + ((eh * 3600 + em * 60 : Nat) : Int)
      let overnight := decide (start > stop)
      let stop := if start > stop then stop + 86400 else stop
      let shouldSync := decide (start ≤ now) && decide (now ≤ stop)
      GoResult.ok
        [("should_sync", GoValue.bool shouldSync),
         ("overnight_time_range", GoValue.bool overnight),
         ("current_time", GoValue.str (toString now)),
         ("start_time", GoValue.str (toString start)),
         ("end_time", GoValue.str (toString stop)),
         ("currentTime.Before(startTime)", GoValue.bool (decide (now < start))),
         ("currentTime.After(endTime)", GoValue.bool (decide (now > stop)))]

/-- `timeSensor.Readings` (revision without overnight handling): strict
`currentTime.After(startTime) && currentTime.Before(endTime)`. -/
def timeSensorReadingsV2 (cfg : SensorConfig) (now : Int) :
    GoResult (List (String × GoValue)) :=
  match parseHHMM cfg.startHours with
  | none => GoResult.err (GoError.other "invalid start time format")
  | some (sh, sm) =>
    match parseHHMM cfg.endHours with
    | none => GoResult.err (GoError.other "invalid end time format")
    | some (eh, em) =>
      let start := dateOf now + ((sh * 3600 + sm * 60 : Nat) : Int)
      let stop := dateOf now + ((eh * 3600 + em * 60 : Nat) : Int)
      let within := decide (start < now) && decide (now < stop)
      GoResult.ok [("within_time_range", GoValue.bool within)]

/-- A weekday entry that `Config.Validate` rejects: missing, empty start or
end, or a start or end that does not parse as HH:MM:SS. -/
def badDayB (ws : List (String × ScheduleHours)) (day : String) : Bool :=
  match ws.lookup day with
  | none => true
  | some sh =>
    sh.start == "" || sh.«end» == "" ||
      (parseHHMMSS sh.start).isNone || (parseHHMMSS sh.«end»).isNone

/-- A full, well-formed weekly schedule (used by concrete evidence below). -/
def fullWeek : List (String × ScheduleHours) :=
  [("mon", ⟨"08:00:00", "18:00:00"⟩), ("tue", ⟨"08:00:00", "18:00:00"⟩),
   ("wed", ⟨"08:00:00", "18:00:00"⟩), ("thu", ⟨"08:00:00", "18:00:00"⟩),
   ("fri", ⟨"08:00:00", "18:00:00"⟩), ("sat", ⟨"08:00:00", "18:00:00"⟩),
   ("sun", ⟨"08:00:00", "18:00:00"⟩)]

/-- C1: for a daily window spanning midnight (start=22:00, end=06:00) the
spec expects 23:00 and 02:00 in-window and 12:00 out.  Evaluating the code at
these instants (day 0 of the model): 23:00 is in-window and 12:00 is out as
claimed, but 02:00 is NOT in-window — both bounds are anchored to the
instant's own calendar date before the 24h adjustment of the end, so the
post-midnight half of an overnight window is rejected on every date.  The
sensor's `should_sync` reading shows the same behaviour. -/
theorem c1_overnight_window_at_2am :
    inWindow ⟨"cam", "22:00", "06:00", [], []⟩ 82800 = true ∧
    inWindow ⟨"cam", "22:00", "06:00", [], []⟩ 43200 = false ∧
    inWindow ⟨"cam", "22:00", "06:00", [], []⟩ 7200 = false ∧
    readingsLookup (timeSensorReadings ⟨"22:00", "06:00"⟩ 7200 none)
      "should_sync" = some (GoValue.bool false) := by decide

/-- C5: a data-producing call whose extra parameters do not carry the
scheduled-capture marker is delegated to the inner capability unchanged, for
any configuration and any instant: `timedCamera.Image` with `fromDM` false,
`timedStream.Next` with a context map lacking the marker, and
`timedStream.Next` with no extra data in the context at all. -/
theorem c5_no_marker_always_delegates :
    (∀ (α : Type) (cfg : Config) (now : Int) (mt : String) (extra : Extra)
        (inner : String → Extra → GoResult α),
        fromDM extra = false →
        timedCameraImage cfg now mt extra inner = inner mt extra) ∧
    (∀ (α : Type) (sH eH : String) (now : Int) (extra : Extra)
        (inner : GoResult α),
        fromDM extra = false →
        timedStreamNext sH eH now (some extra) inner = inner) ∧
    (∀ (α : Type) (sH eH : String) (now : Int) (inner : GoResult α),
        timedStreamNext sH eH now none inner = inner) := by
  refine ⟨?_, ?_, ?_⟩
  · intro α cfg now mt extra inner h
    simp [timedCameraImage, h]
  · intro α sH eH now extra inner h
    simp [timedStreamNext, h]
  · intro α sH eH now inner
    rfl

/-- Witness for C5: a manual-style call (marker key present but holding the
string "true", not the boolean) at an out-of-window instant still reaches the
inner camera. -/
theorem c5_no_marker_always_delegates_witness :
    timedCameraImage ⟨"cam", "08:00", "18:00", [], []⟩ 0 "jpg"
      (some [("fromDataManagement", GoValue.str "true")])
      (fun mt _ => GoResult.ok mt) = GoResult.ok "jpg" :=
  c5_no_marker_always_delegates.1 String ⟨"cam", "08:00", "18:00", [], []⟩ 0
    "jpg" (some [("fromDataManagement", GoValue.str "true")])
    (fun mt _ => GoResult.ok mt) (by decide)

/-- C7 counterexample: `Properties` does NOT return the inner camera's
properties unmodified — with an inner camera reporting point-cloud support,
the wrapper's result differs from the inner result (`SupportsPCD` is forced
to `false`). -/
theorem c7_properties_modified_counterexample :
    timedCameraProperties (GoResult.ok ⟨true, "inner"⟩) ≠
      GoResult.ok ⟨true, "inner"⟩ := by decide

/-- C7 (amended): every capability operation other than the gated
data-producing call either delegates or returns the explicit unimplemented
error; `Images`, `NextPointCloud` and `DoCommand` (camera and sensor) always
return unimplemented, while `Properties` delegates to the inner camera but
forces `SupportsPCD` to `false` on success (passing an inner error through
unchanged) rather than returning the properties unmodified. -/
theorem c7_other_operations :
    timedCameraImages = GoResult.err GoError.unimplemented ∧
    timedCameraNextPointCloud = GoResult.err GoError.unimplemented ∧
    (∀ cmd, timedCameraDoCommand cmd = GoResult.err GoError.unimplemented) ∧
    (∀ cmd, timeSensorDoCommand cmd = GoResult.err GoError.unimplemented) ∧
    (∀ p, timedCameraProperties (GoResult.ok p) =
      GoResult.ok ⟨false, p.otherFields⟩) ∧
    (∀ e, timedCameraProperties (GoResult.err e) = GoResult.err e) :=
  ⟨rfl, rfl, fun _ => rfl, fun _ => rfl, fun _ => rfl, fun _ => rfl⟩

/-- C10: the gate fires exactly when the extra map is non-nil and its
`fromDataManagement` entry is the boolean `true`: a nil map, an absent key,
the boolean `false` or the string "true" all bypass the window check and
delegate; the boolean `true` gates (sentinel outside the window, delegation
inside it).  The same comparison governs the stream-based `Next`. -/
theorem c10_marker_is_exact_boolean_true :
    ∀ (α : Type) (cfg : Config) (now : Int) (mt : String)
      (inner : String → Extra → GoResult α) (m : List (String × GoValue)),
      (timedCameraImage cfg now mt none inner = inner mt none) ∧
      (m.lookup "fromDataManagement" = none →
        timedCameraImage cfg now mt (some m) inner = inner mt (some m)) ∧
      (m.lookup "fromDataManagement" = some (GoValue.bool false) →
        timedCameraImage cfg now mt (some m) inner = inner mt (some m)) ∧
      (m.lookup "fromDataManagement" = some (GoValue.str "true") →
        timedCameraImage cfg now mt (some m) inner = inner mt (some m)) ∧
      (m.lookup "fromDataManagement" = some (GoValue.bool true) →
        inWindow cfg now = false →
        timedCameraImage cfg now mt (some m) inner =
          GoResult.err GoError.noCaptureToStore) ∧
      (m.lookup "fromDataManagement" = some (GoValue.bool true) →
        inWindow cfg now = true →
        timedCameraImage cfg now mt (some m) inner = inner mt (some m)) ∧
      (∀ (sH eH : String) (innerS : GoResult α),
        m.lookup "fromDataManagement" ≠ some (GoValue.bool true) →
        timedStreamNext sH eH now (some (some m)) innerS = innerS) := by
  intro α cfg now mt inner m
  refine ⟨?_, ?_, ?_, ?_, ?_, ?_, ?_⟩
  · rfl
  · intro h; simp [timedCameraImage, fromDM, h]
  · intro h; simp [timedCameraImage, fromDM, h]
  · intro h; simp [timedCameraImage, fromDM, h]
  · intro h hw; simp [timedCameraImage, fromDM, h, hw]
  · intro h hw; simp [timedCameraImage, fromDM, h, hw]
  · intro sH eH innerS h; simp [timedStreamNext, fromDM, h]

/-- Witness for C10: with daily window 08:00-18:00 at midnight
(out-of-window), the boolean `true` marker yields the no-capture sentinel
while the boolean `false` marker delegates. -/
theorem c10_marker_is_exact_boolean_true_witness :
    timedCameraImage ⟨"cam", "08:00", "18:00", [], []⟩ 0 "jpg"
      (some [("fromDataManagement", GoValue.bool true)])
      (fun mt _ => GoResult.ok mt) = GoResult.err GoError.noCaptureToStore ∧
    timedCameraImage ⟨"cam", "08:00", "18:00", [], []⟩ 0 "jpg"
      (some [("fromDataManagement", GoValue.bool false)])
      (fun mt _ => GoResult.ok mt) = GoResult.ok "jpg" := by
  constructor
  · exact (c10_marker_is_exact_boolean_true String ⟨"cam", "08:00", "18:00", [], []⟩
      0 "jpg" (fun mt _ => GoResult.ok mt)
      [("fromDataManagement", GoValue.bool true)]).2.2.2.2.1 (by decide) (by decide)
  · exact (c10_marker_is_exact_boolean_true String ⟨"cam", "08:00", "18:00", [], []⟩
      0 "jpg" (fun mt _ => GoResult.ok mt)
      [("fromDataManagement", GoValue.bool false)]).2.2.1 (by decide)

/-- C2 counterexample: the sensor wrapper does not gate at all — a Readings
call carrying the scheduled-capture marker, at an instant outside the 08:00-
18:00 window (midnight), returns a readings map (with `should_sync = false`)
rather than the nothing-to-capture sentinel. -/
theorem c2_sensor_no_sentinel_counterexample :
    timeSensorReadings ⟨"08:00", "18:00"⟩ 0
        (some [("fromDataManagement", GoValue.bool true)]) ≠
      GoResult.err GoError.noCaptureToStore ∧
    readingsLookup (timeSensorReadings ⟨"08:00", "18:00"⟩ 0
        (some [("fromDataManagement", GoValue.bool true)]))
      "should_sync" = some (GoValue.bool false) := by decide

/-- C2 (amended): only the camera wrapper gates marked data-producing calls:
with the marker, `Image` returns the nothing-to-capture sentinel outside the
window and otherwise delegates to the inner camera unmodified; the sensor's
`Readings` (either revision) never returns the sentinel — it reports the
window state as a reading instead. -/
theorem c2_camera_gates_sensor_reports :
    (∀ (α : Type) (cfg : Config) (now : Int) (mt : String) (extra : Extra)
        (inner : String → Extra → GoResult α),
        fromDM extra = true →
        (inWindow cfg now = false →
          timedCameraImage cfg now mt extra inner =
            GoResult.err GoError.noCaptureToStore) ∧
        (inWindow cfg now = true →
          timedCameraImage cfg now mt extra inner = inner mt extra)) ∧
    (∀ (scfg : SensorConfig) (now : Int) (extra : Extra),
        timeSensorReadings scfg now extra ≠
          GoResult.err GoError.noCaptureToStore) ∧
    (∀ (scfg : SensorConfig) (now : Int),
        timeSensorReadingsV2 scfg now ≠
          GoResult.err GoError.noCaptureToStore) := by
  refine ⟨?_, ?_, ?_⟩
  · intro α cfg now mt extra inner hdm
    constructor
    · intro hw; simp [timedCameraImage, hdm, hw]
    · intro hw; simp [timedCameraImage, hdm, hw]
  · intro scfg now extra h
    unfold timeSensorReadings at h
    cases hps : parseHHMM scfg.startHours with
    | none => rw [hps] at h; simp at h
    | some p =>
      obtain ⟨sh, sm⟩ := p
      rw [hps] at h
      cases hpe : parseHHMM scfg.endHours with
      | none => rw [hpe] at h; simp at h
      | some q =>
        obtain ⟨eh, em⟩ := q
        rw [hpe] at h
        simp at h
  · intro scfg now h
    unfold timeSensorReadingsV2 at h
    cases hps : parseHHMM scfg.startHours with
    | none => rw [hps] at h; simp at h
    | some p =>
      obtain ⟨sh, sm⟩ := p
      rw [hps] at h
      cases hpe : parseHHMM scfg.endHours with
      | none => rw [hpe] at h; simp at h
      | some q =>
        obtain ⟨eh, em⟩ := q
        rw [hpe] at h
        simp at h

/-- Witness for C2 (amended): the camera returns the sentinel for a marked
call at midnight against the 08:00-18:00 window, and the sensor at the same
instant still returns readings rather than the sentinel. -/
theorem c2_camera_gates_sensor_reports_witness :
    timedCameraImage ⟨"cam", "08:00", "18:00", [], []⟩ 0 "jpg"
      (some [("fromDataManagement", GoValue.bool true)])
      (fun mt _ => GoResult.ok mt) = GoResult.err GoError.noCaptureToStore ∧
    timeSensorReadings ⟨"08:00", "18:00"⟩ 0 none ≠
      GoResult.err GoError.noCaptureToStore := by
  constructor
  · exact (c2_camera_gates_sensor_reports.1 String
      ⟨"cam", "08:00", "18:00", [], []⟩ 0 "jpg"
      (some [("fromDataManagement", GoValue.bool true)])
      (fun mt _ => GoResult.ok mt) (by decide)).1 (by decide)
  · exact c2_camera_gates_sensor_reports.2.1 ⟨"08:00", "18:00"⟩ 0 none

/-- C4 counterexample: a configuration populating TWO schedule variants
(daily hours and a full weekly schedule) passes validation, so validation
does not require exactly one variant. -/
theorem c4_two_variants_accepted_counterexample :
    Config.Validate ⟨"cam", "08:00", "18:00", fullWeek, []⟩ "p" =
      GoResult.ok ["cam"] ∧
    (⟨"cam", "08:00", "18:00", fullWeek, []⟩ : Config).startHours ≠ "" ∧
    (⟨"cam", "08:00", "18:00", fullWeek, []⟩ : Config).endHours ≠ "" ∧
    (⟨"cam", "08:00", "18:00", fullWeek, []⟩ : Config).weeklySchedule ≠ [] := by
  decide

/-- C4 (amended): validation requires at least one (not exactly one)
schedule variant: populating zero variants is always rejected, while a
configuration populating several well-formed variants at once is accepted. -/
theorem c4_at_least_one_variant :
    (∀ (cfg : Config) (path : String),
        (cfg.startHours = "" ∨ cfg.endHours = "") →
        cfg.weeklySchedule = [] → cfg.schedule = [] →
        (Config.Validate cfg path).isErr = true) ∧
    Config.Validate ⟨"cam", "08:00", "18:00", fullWeek, []⟩ "p" =
      GoResult.ok ["cam"] := by
  constructor
  · intro cfg path h1 h2 h3
    by_cases hc : cfg.camera = ""
    · simp [Config.Validate, hc, GoResult.isErr]
    · have hh : (cfg.startHours != "" && cfg.endHours != "") = false := by
        rcases h1 with h | h <;> simp [h]

      simp [Config.Validate, hc, hh, h2, h3, GoResult.isErr]
  · decide

/-- Witness for C4 (amended): a configuration naming a camera but populating
no schedule variant is rejected. -/
theorem c4_at_least_one_variant_witness :
    (Config.Validate ⟨"cam", "", "", [], []⟩ "p").isErr = true :=
  c4_at_least_one_variant.1 ⟨"cam", "", "", [], []⟩ "p" (Or.inl rfl) rfl rfl

/-- C9: in weekly mode (weekly schedule populated, daily hours unset, no
explicit date ranges), an instant whose abbreviated lowercase weekday name
has no entry in the weekly schedule map is not in-window. -/
theorem c9_weekly_missing_day_not_in_window (cfg : Config) (t : Int)
    (hS : cfg.startHours = "") (_hW : cfg.weeklySchedule ≠ [])
    (hD : cfg.schedule = [])
    (hlook : cfg.weeklySchedule.lookup (weekdayName t) = none) :
    inWindow cfg t = false := by
  simp [inWindow, hS, hlook, hD, inAnyRange]

/-- Witness for C9: a weekly schedule holding only a Monday entry evaluated
at a Tuesday instant (1970-01-06) is not in-window. -/
theorem c9_weekly_missing_day_not_in_window_witness :
    inWindow ⟨"cam", "", "", [("mon", ⟨"08:00:00", "18:00:00"⟩)], []⟩
      432000 = false :=
  c9_weekly_missing_day_not_in_window
    ⟨"cam", "", "", [("mon", ⟨"08:00:00", "18:00:00"⟩)], []⟩ 432000
    rfl (by decide) rfl (by decide)

/-- A string that parses as HH:MM is not empty. -/
theorem parseHHMM_ne_empty {s : String} {p : Nat × Nat}
    (hp : parseHHMM s = some p) : s ≠ "" := by
  intro he
  subst he
  rw [show parseHHMM "" = none from rfl] at hp
  exact Option.noConfusion hp

/-- The date-ranges loop succeeds exactly when some listed range (with
discarded parse errors yielding Go's zero time) contains the instant,
inclusively on both ends. -/
theorem inAnyRange_iff (t : Int) (rs : List DateRange) :
    inAnyRange t rs = true ↔
      ∃ dr ∈ rs, (parseRFC3339 dr.start).getD zeroTimeSec ≤ t ∧
        t ≤ (parseRFC3339 dr.«end»).getD zeroTimeSec := by
  induction rs with
  | nil => simp [inAnyRange]
  | cons dr rest ih =>
    rw [inAnyRange]
    split
    · rename_i hc
      simp only [Bool.and_eq_true, decide_eq_true_eq] at hc
      exact iff_of_true rfl ⟨dr, List.mem_cons_self dr rest, hc.1, hc.2⟩
    · rename_i hc
      rw [ih]
      constructor
      · rintro ⟨d2, hd2, hle1, hle2⟩
        exact ⟨d2, List.mem_cons_of_mem dr hd2, hle1, hle2⟩
      · rintro ⟨d2, hd2, hle1, hle2⟩
        rcases List.mem_cons.mp hd2 with heq | hd2'
        · subst heq
          exact absurd (by simp [hle1, hle2]) hc
        · exact ⟨d2, hd2', hle1, hle2⟩

/-- C3 counterexample: the sensor's `within_time_range` evaluator is NOT
inclusive on both ends — with the daily window 08:00-18:00, the instants at
exactly 08:00 and exactly 18:00 are reported out-of-window. -/
theorem c3_sensor_boundary_excluded_counterexample :
    readingsLookup (timeSensorReadingsV2 ⟨"08:00", "18:00"⟩ 28800)
      "within_time_range" = some (GoValue.bool false) ∧
    readingsLookup (timeSensorReadingsV2 ⟨"08:00", "18:00"⟩ 64800)
      "within_time_range" = some (GoValue.bool false) := by decide

/-- C3 (amended): the camera's daily-mode window (and the sensor revision
with overnight handling) is inclusive on both ends — for any daily
configuration, `inWindow` holds exactly on the closed interval from the
anchored start to the (possibly midnight-adjusted) anchored end, and at
08:00-18:00 the boundaries are in-window while 07:59 and 18:01 are not;
the sensor's `within_time_range` revision, by contrast, is strict on both
ends (boundaries out, 12:00 in). -/
theorem c3_daily_window_inclusive_amended :
    (∀ (cfg : Config) (t : Int) (sh sm eh em : Nat),
        parseHHMM cfg.startHours = some (sh, sm) →
        parseHHMM cfg.endHours = some (eh, em) →
        (inWindow cfg t = true ↔
          dateOf t + ((sh * 3600 + sm * 60 : Nat) : Int) ≤ t ∧
          t ≤ (if dateOf t + ((sh * 3600 + sm * 60 : Nat) : Int) >
                  dateOf t + ((eh * 3600 + em * 60 : Nat) : Int)
               then dateOf t + ((eh * 3600 + em * 60 : Nat) : Int) + 86400
               else dateOf t + ((eh * 3600 + em * 60 : Nat) : Int)))) ∧
    (inWindow ⟨"cam", "08:00", "18:00", [], []⟩ 28800 = true ∧
     inWindow ⟨"cam", "08:00", "18:00", [], []⟩ 64800 = true ∧
     inWindow ⟨"cam", "08:00", "18:00", [], []⟩ 43200 = true ∧
     inWindow ⟨"cam", "08:00", "18:00", [], []⟩ 28740 = false ∧
     inWindow ⟨"cam", "08:00", "18:00", [], []⟩ 64860 = false) ∧
    (readingsLookup (timeSensorReadings ⟨"08:00", "18:00"⟩ 28800 none)
        "should_sync" = some (GoValue.bool true) ∧
     readingsLookup (timeSensorReadings ⟨"08:00", "18:00"⟩ 64800 none)
        "should_sync" = some (GoValue.bool true)) ∧
    (readingsLookup (timeSensorReadingsV2 ⟨"08:00", "18:00"⟩ 28800)
        "within_time_range" = some (GoValue.bool false) ∧
     readingsLookup (timeSensorReadingsV2 ⟨"08:00", "18:00"⟩ 64800)
        "within_time_range" = some (GoValue.bool false) ∧
     readingsLookup (timeSensorReadingsV2 ⟨"08:00", "18:00"⟩ 43200)
        "within_time_range" = some (GoValue.bool true)) := by
  refine ⟨?_, by decide, by decide, by decide⟩
  intro cfg t sh sm eh em hps hpe
  have hcond : (cfg.startHours != "" && cfg.endHours != "") = true := by
    simp [bne_iff_ne, parseHHMM_ne_empty hps, parseHHMM_ne_empty hpe]
  simp [inWindow, hcond, hps, hpe]

/-- Witness for C3 (amended): the characterization applied to the concrete
08:00-18:00 configuration at the exact start boundary. -/
theorem c3_daily_window_inclusive_amended_witness :
    inWindow ⟨"cam", "08:00", "18:00", [], []⟩ 28800 = true :=
  (c3_daily_window_inclusive_amended.1 ⟨"cam", "08:00", "18:00", [], []⟩
    28800 8 0 18 0 rfl rfl).mpr (by decide)

/-- C6: in explicit-range mode (daily hours unset, no weekly schedule), an
instant is in-window iff at least one listed range, parsed as RFC3339,
contains it — inclusively on both boundaries. -/
theorem c6_explicit_ranges_inclusive (cfg : Config) (t : Int)
    (hS : cfg.startHours = "") (hW : cfg.weeklySchedule = [])
    (hp : ∀ dr ∈ cfg.schedule,
      (parseRFC3339 dr.start).isSome ∧ (parseRFC3339 dr.«end»).isSome) :
    (inWindow cfg t = true ↔
      ∃ dr ∈ cfg.schedule, ∃ s e, parseRFC3339 dr.start = some s ∧
        parseRFC3339 dr.«end» = some e ∧ s ≤ t ∧ t ≤ e) := by
  have h1 : (cfg.startHours != "" && cfg.endHours != "") = false := by
    simp [hS]
  rw [show inWindow cfg t = inAnyRange t cfg.schedule from by
    simp [inWindow, h1, hW]]
  rw [inAnyRange_iff]
  constructor
  · rintro ⟨dr, hmem, hle1, hle2⟩
    obtain ⟨hs1, hs2⟩ := hp dr hmem
    obtain ⟨s, hs⟩ := Option.isSome_iff_exists.mp hs1
    obtain ⟨e, he⟩ := Option.isSome_iff_exists.mp hs2
    refine ⟨dr, hmem, s, e, hs, he, ?_, ?_⟩
    · rwa [hs, Option.getD_some] at hle1
    · rwa [he, Option.getD_some] at hle2
  · rintro ⟨dr, hmem, s, e, hs, he, hle1, hle2⟩
    refine ⟨dr, hmem, ?_, ?_⟩
    · rw [hs, Option.getD_some]; exact hle1
    · rw [he, Option.getD_some]; exact hle2

/-- Witness for C6: for the single range 2024-01-01T00:00:00Z to
2024-01-02T00:00:00Z, both boundary instants are in-window and the instant
one second past the end is not. -/
theorem c6_explicit_ranges_inclusive_witness :
    inWindow ⟨"cam", "", "", [],
      [⟨"2024-01-01T00:00:00Z", "2024-01-02T00:00:00Z"⟩]⟩ 1704067200 = true ∧
    inWindow ⟨"cam", "", "", [],
      [⟨"2024-01-01T00:00:00Z", "2024-01-02T00:00:00Z"⟩]⟩ 1704153600 = true ∧
    inWindow ⟨"cam", "", "", [],
      [⟨"2024-01-01T00:00:00Z", "2024-01-02T00:00:00Z"⟩]⟩ 1704153601 = false := by
  refine ⟨?_, ?_, by decide⟩
  · exact (c6_explicit_ranges_inclusive _ 1704067200 rfl rfl (by decide)).mpr
      ⟨⟨"2024-01-01T00:00:00Z", "2024-01-02T00:00:00Z"⟩, by decide,
        1704067200, 1704153600, by decide, by decide, by decide, by decide⟩
  · exact (c6_explicit_ranges_inclusive _ 1704153600 rfl rfl (by decide)).mpr
      ⟨⟨"2024-01-01T00:00:00Z", "2024-01-02T00:00:00Z"⟩, by decide,
        1704067200, 1704153600, by decide, by decide, by decide, by decide⟩

/-- A rejectable weekday entry makes its per-day check report an error. -/
theorem checkOneDay_isSome_of_bad (ws : List (String × ScheduleHours))
    (path day : String) (hbad : badDayB ws day = true) :
    (checkOneDay ws path day).isSome = true := by
  unfold badDayB at hbad
  cases hl : ws.lookup day with
  | none => simp [checkOneDay, hl]
  | some sh =>
    rw [hl] at hbad
    simp only [Bool.or_eq_true, beq_iff_eq, Option.isNone_iff_eq_none] at hbad
    by_cases h1 : sh.start = "" ∨ sh.«end» = ""
    · simp [checkOneDay, hl, h1]
    · rcases hbad with ((h | h) | h) | h
      · exact absurd (Or.inl h) h1
      · exact absurd (Or.inr h) h1
      · simp [checkOneDay, hl, h1, h]
      · cases hps : parseHHMMSS sh.start with
        | none => simp [checkOneDay, hl, h1, hps]
        | some v => simp [checkOneDay, hl, h1, hps, h]

/-- If some listed weekday has a rejectable entry, the per-day validation
loop reports an error. -/
theorem checkWeeklyDays_isSome_of_bad :
    ∀ (days : List String) (ws : List (String × ScheduleHours))
      (path day : String), day ∈ days → badDayB ws day = true →
      (checkWeeklyDays ws path days).isSome = true := by
  intro days
  induction days with
  | nil =>
    intro ws path day hmem _
    exact absurd hmem (List.not_mem_nil day)
  | cons d rest ih =>
    intro ws path day hmem hbad
    rw [checkWeeklyDays]
    cases hc : checkOneDay ws path d with
    | some e => rfl
    | none =>
      rcases List.mem_cons.mp hmem with heq | hmem2
      · subst heq
        have hbd := checkOneDay_isSome_of_bad ws path day hbad
        rw [hc] at hbd
        exact absurd hbd (by simp)
      · exact ih ws path day hmem2 hbad

/-- C8: whenever the weekly-schedule variant is used and any of the seven
weekday entries is missing, has an empty start or end, or has a start or end
that does not parse as HH:MM:SS, validation fails. -/
theorem c8_weekly_validation_fails (cfg : Config) (path day : String)
    (hW : cfg.weeklySchedule ≠ []) (hmem : day ∈ validateDays)
    (hbad : badDayB cfg.weeklySchedule day = true) :
    (Config.Validate cfg path).isErr = true := by
  have hsome := checkWeeklyDays_isSome_of_bad validateDays cfg.weeklySchedule
    path day hmem hbad
  have hwm : cfg.weeklySchedule.isEmpty = false := by
    simpa using hW
  unfold Config.Validate
  split
  · rfl
  · split
    · rfl
    · split
      · rfl
      · split
        · rfl
        · rename_i hnone
          rw [hwm] at hnone
          simp only [Bool.not_false, if_true] at hnone
          rw [hnone] at hsome
          exact absurd hsome (by simp)

/-- Witness for C8: a weekly schedule missing its `sun` entry fails
validation. -/
theorem c8_weekly_validation_fails_witness :
    (Config.Validate ⟨"cam", "", "",
      [("mon", ⟨"08:00:00", "18:00:00"⟩), ("tue", ⟨"08:00:00", "18:00:00"⟩),
       ("wed", ⟨"08:00:00", "18:00:00"⟩), ("thu", ⟨"08:00:00", "18:00:00"⟩),
       ("fri", ⟨"08:00:00", "18:00:00"⟩), ("sat", ⟨"08:00:00", "18:00:00"⟩)],
      []⟩ "p").isErr = true :=
  c8_weekly_validation_fails _ "p" "sun" (by decide) (by decide) (by decide)

end TimeSelect
